import Mathlib

/-!
Verification of the sabi-tui agent core against its specification.

The definitions below are a shallow embedding of the repository's Rust
sources.  Each definition names the Rust item it embeds:

* `src/app.rs`   — `App`, `submit_input`, `transition` (the method), helpers;
* `src/mcp.rs`   — `McpClient` (`call`, `call_with_retry`, `start_server`,
  `stop_server`, `restart_server`, `initialize`), the process table and the
  per-server `request_id` counter;
* `src/main.rs`  — the `run_loop` dispatch fragments for confirmed tool
  calls (safe mode, MCP, executor), the `ApiResponse` handler, and the
  `run_quick_mode` response dispatch.

Modules `src/state.rs`, `src/message.rs`, `src/tool_call.rs` and
`src/executor.rs` are referenced by the sources but are not part of the
source snapshot; their interfaces are modelled from the specification
(sections 3, 4.2, 4.3, 4.7) and each such definition carries a doc comment
saying so.

Rust strings are modelled as Lean `String`; `str::trim` (Unicode
white-space) is modelled with `Char.isWhitespace` (ASCII white-space),
which is exact on every input the claims quantify over.  Machine integers
(`u64` request ids, byte lengths) are modelled as `Nat`; no embedded
operation can overflow a `u64` in any run considered here.
-/

namespace Sabi

/-- JSON values (`serde_json::Value`).  Field order is significant only in
the model; no embedded operation inspects it. -/
inductive JsonVal where
  | null
  | bool (b : Bool)
  | num (n : Int)
  | str (s : String)
  | arr (elems : List JsonVal)
  | obj (fields : List (String × JsonVal))

/-- Modelled from the spec: `src/message.rs` is not in the source snapshot.
§3: role ∈ \x7bsystem, user, model\x7d. -/
inductive MessageRole where
  | system
  | user
  | model
deriving DecidableEq

/-- Modelled from the spec: `src/message.rs` is not in the source snapshot.
§3: a message is a role together with UTF-8 content. -/
structure Message where
  role : MessageRole
  content : String
deriving DecidableEq

/-- `Message::system` constructor used throughout `src/main.rs`. -/
def Message.mkSystem (c : String) : Message := ⟨.system, c⟩

/-- `Message::user` constructor used throughout `src/main.rs` and
`src/app.rs`. -/
def Message.mkUser (c : String) : Message := ⟨.user, c⟩

/-- `Message::model` constructor used throughout `src/main.rs`. -/
def Message.mkModel (c : String) : Message := ⟨.model, c⟩

/-- Modelled from the spec: `src/state.rs` is not in the source snapshot.
§4.7: session states. -/
inductive AppState where
  | Input
  | Thinking
  | ReviewAction
  | Executing
  | Finalizing
deriving DecidableEq

/-- Modelled from the spec: `src/state.rs` is not in the source snapshot.
§4.7: state-machine events. -/
inductive StateEvent where
  | SubmitInput (is_empty : Bool)
  | ToolCallReceived
  | TextResponseReceived
  | ApiError
  | ExecuteConfirmed
  | ExecuteCancelled
  | CommandComplete
  | AnalysisComplete
deriving DecidableEq

/-- Modelled from the spec: `src/state.rs` is not in the source snapshot.
§9: the machine is a pure function
`(state, event) -> Success(state) | Ignored | Error(msg)`. -/
inductive TransitionResult where
  | Success (s : AppState)
  | Ignored
  | Error (msg : String)
deriving DecidableEq

/-- Modelled from the spec: `src/state.rs` is not in the source snapshot.
The transition table of §4.7 (all pairs outside the table are `Ignored`,
and `Input + SubmitInput is_empty=true` is listed there as ignored),
extended with `Executing + AnalysisComplete → Input`, which §7 states
explicitly ("state goes to Input via AnalysisComplete"), §8 S6 requires,
and on which `src/main.rs` relies at lines 649, 708, 735 and 974. -/
def transition : AppState → StateEvent → TransitionResult
  | .Input, .SubmitInput false => .Success .Thinking
  | .Thinking, .ToolCallReceived => .Success .ReviewAction
  | .Thinking, .TextResponseReceived => .Success .Input
  | .Thinking, .ApiError => .Success .Input
  | .ReviewAction, .ExecuteConfirmed => .Success .Executing
  | .ReviewAction, .ExecuteCancelled => .Success .Input
  | .Executing, .CommandComplete => .Success .Finalizing
  | .Executing, .AnalysisComplete => .Success .Input
  | .Finalizing, .ApiError => .Success .Input
  | .Finalizing, .AnalysisComplete => .Success .Input
  | .Finalizing, .TextResponseReceived => .Success .Input
  | .Finalizing, .ToolCallReceived => .Success .ReviewAction
  | _, _ => .Ignored

/-- Modelled from the spec: `src/tool_call.rs` is not in the source
snapshot.  §3 gives the tool-call union; `src/main.rs` accesses a flat
field record with a `tool` discriminator string, which is how the union is
modelled here (absent fields of a given variant are empty). -/
structure ToolCall where
  tool : String
  command : String
  code : String
  path : String
  content : String
  pattern : String
  directory : String
  server : String
  name : String
  arguments : JsonVal

/-- Modelled from the spec: `src/tool_call.rs` is not in the source
snapshot.  §3: a parsed model reply is a tool call or plain text. -/
inductive ParsedResponse where
  | toolCall (tc : ToolCall)
  | textResponse (s : String)

/-- `ToolCall::is_run_cmd` (renamed `isRunCmd` here) as used at `src/main.rs:791`.  Modelled from the
spec (§3 discriminator), `src/tool_call.rs` being absent. -/
def ToolCall.isRunCmd (t : ToolCall) : Bool := t.tool = "run_cmd"

/-- `ToolCall::is_mcp` as used at `src/main.rs:709`.  Modelled from the
spec (§3 discriminator), `src/tool_call.rs` being absent. -/
def ToolCall.is_mcp (t : ToolCall) : Bool := t.tool = "mcp"

/-- `ToolCall::is_allowed_tool` as used at `src/main.rs:823`.  Modelled
from the spec: §3 fixes the allow-list as the six union variants. -/
def ToolCall.is_allowed_tool (t : ToolCall) : Bool :=
  t.tool = "run_cmd" || t.tool = "run_python" || t.tool = "read_file" ||
  t.tool = "write_file" || t.tool = "search" || t.tool = "mcp"

/-- `Config` fields read by the embedded code (`src/app.rs` stores it,
`src/main.rs` reads `safe_mode` and `dangerous_patterns`); `src/config.rs`
is not in the source snapshot, so only those two fields are modelled. -/
structure Config where
  safe_mode : Bool
  dangerous_patterns : List String
deriving DecidableEq

/-- Concatenation of text-area lines with `"\n"`, as in
`self.input_textarea.lines().join("\n")` (`src/app.rs:76`). -/
def joinLines : List String → String
  | [] => ""
  | [l] => l
  | l :: ls => l ++ "\n" ++ joinLines ls

/-- `str::trim` (`src/app.rs:76`): drop white-space from both ends. -/
def strTrim (s : String) : String :=
  ⟨(((s.data.dropWhile Char.isWhitespace).reverse.dropWhile
      Char.isWhitespace).reverse)⟩

/-- Splitting on `'\n'`, modelling `str::lines` at `src/app.rs:104`. -/
def splitLinesAux : List Char → List Char → List String
  | [], acc => [⟨acc.reverse⟩]
  | c :: rest, acc =>
    if c = '\n' then ⟨acc.reverse⟩ :: splitLinesAux rest []
    else splitLinesAux rest (c :: acc)

/-- `str::lines` as used by `App::set_action_text` (`src/app.rs:104`). -/
def splitLines (s : String) : List String := splitLinesAux s.data []

/-- `String::len` in Rust counts UTF-8 bytes (`src/main.rs:696`). -/
def strByteLen (s : String) : Nat :=
  s.data.foldl (fun n c => n + c.utf8Size) 0

/-- The `App` aggregate of `src/app.rs:12-48`.  Text areas are modelled by
their line lists.  The last four fields do not appear in `src/app.rs` but
are read or written on `app` by `src/main.rs` (`current_tool`,
`python_available`, `mcp_client`, `running_task`); the task handle and the
MCP client handle are modelled by their presence. -/
structure App where
  state : AppState
  input_textarea : List String
  action_textarea : List String
  messages : List Message
  current_command : Option String
  execution_output : String
  error_message : Option String
  spinner_frame : Nat
  should_quit : Bool
  scroll_offset : Nat
  dangerous_command_detected : Bool
  config : Config
  current_tool : Option ToolCall
  python_available : Bool
  mcp_client_present : Bool
  running_task : Bool

/-- `App::get_input_text` (`src/app.rs:75-77`). -/
def App.get_input_text (a : App) : String :=
  strTrim (joinLines a.input_textarea)

/-- `App::is_input_empty` (`src/app.rs:85-87`). -/
def App.is_input_empty (a : App) : Bool :=
  a.get_input_text = ""

/-- `App::clear_input` (`src/app.rs:90-93`); a fresh default text area has
no content (the placeholder is rendering-only). -/
def App.clear_input (a : App) : App :=
  { a with input_textarea := [] }

/-- `App::set_action_text` (`src/app.rs:102-112`): the text area ends up
holding exactly the lines of `text`. -/
def App.set_action_text (a : App) (text : String) : App :=
  { a with action_textarea := splitLines text }

/-- `App::add_message` (`src/app.rs:115-117`). -/
def App.add_message (a : App) (m : Message) : App :=
  { a with messages := a.messages ++ [m] }

/-- `App::set_error` (`src/app.rs:125-127`). -/
def App.set_error (a : App) (e : String) : App :=
  { a with error_message := some e }

/-- `App::transition` (`src/app.rs:132-144`): returns the updated app and
the boolean result of the attempt. -/
def App.do_transition (a : App) (e : StateEvent) : App × Bool :=
  match transition a.state e with
  | .Success new_state => ({ a with state := new_state }, true)
  | .Ignored => (a, false)
  | .Error msg => (a.set_error msg, false)

/-- `App::submit_input` (`src/app.rs:149-159`): when the trimmed input is
non-empty, a user message is appended and the input cleared, and only then
the transition is attempted. -/
def App.submit_input (a : App) : App × Bool :=
  let is_empty := a.is_input_empty
  let a1 :=
    if is_empty then a
    else (a.add_message (Message.mkUser a.get_input_text)).clear_input
  a1.do_transition (.SubmitInput is_empty)

/-! ## `run_loop` fragments (`src/main.rs`) -/

mutual

/-- A rendering of `serde_json::to_string_pretty` used only to build
display strings (`src/main.rs:781-786`); its exact shape decides no
claim. -/
def jsonRender : JsonVal → String
  | .null => "null"
  | .bool true => "true"
  | .bool false => "false"
  | .num n => toString n
  | .str s => "\"" ++ s ++ "\""
  | .arr elems => "[" ++ jsonRenderList elems ++ "]"
  | .obj fields => "\x7b" ++ jsonRenderFields fields ++ "\x7d"

/-- Helper for `jsonRender` on arrays. -/
def jsonRenderList : List JsonVal → String
  | [] => ""
  | [v] => jsonRender v
  | v :: vs => jsonRender v ++ "," ++ jsonRenderList vs

/-- Helper for `jsonRender` on objects. -/
def jsonRenderFields : List (String × JsonVal) → String
  | [] => ""
  | [(k, v)] => "\"" ++ k ++ "\":" ++ jsonRender v
  | (k, v) :: fs => "\"" ++ k ++ "\":" ++ jsonRender v ++ "," ++ jsonRenderFields fs

end

/-- The `Debug` rendering of a `ToolCall` (`format!("\x7b:?\x7d", tool)`,
`src/main.rs:705` and `787`); only its presence matters to any claim. -/
def ToolCall.debugRender (t : ToolCall) : String :=
  "ToolCall \x7b tool: \"" ++ t.tool ++ "\", command: \"" ++ t.command ++
  "\", code: \"" ++ t.code ++ "\", path: \"" ++ t.path ++
  "\", content: \"" ++ t.content ++ "\", pattern: \"" ++ t.pattern ++
  "\", directory: \"" ++ t.directory ++ "\", server: \"" ++ t.server ++
  "\", name: \"" ++ t.name ++ "\", arguments: " ++ jsonRender t.arguments ++
  " \x7d"

/-- The safe-mode description built at `src/main.rs:690-706`. -/
def safeModeDesc (t : ToolCall) : String :=
  match t.tool with
  | "run_cmd" => "Would run: " ++ t.command
  | "run_python" => "Would run Python:\n" ++ t.code
  | "read_file" => "Would read: " ++ t.path
  | "write_file" =>
    "Would write " ++ toString (strByteLen t.content) ++ " bytes to: " ++ t.path
  | "search" =>
    "Would search \x27" ++ t.pattern ++ "\x27 in " ++ t.directory
  | "mcp" => "Would call MCP: " ++ t.server ++ "/" ++ t.name
  | _ => "Would execute: " ++ t.debugRender

/-- The side effect dispatched by the `ExecuteCommand` arm of `run_loop`
(`src/main.rs:685-747`): nothing, a background executor task
(`CommandExecutor::execute_tool_async`), or a blocking MCP
`call_tool`. -/
inductive DispatchAction where
  | noDispatch
  | execTool (tool : ToolCall)
  | mcpCall (server tname : String) (args : JsonVal)

/-- The `ExecuteCommand` arm of `run_loop` (`src/main.rs:685-747`),
entered when `handle_key_event` returned `InputResult::ExecuteCommand`
and `app.current_tool` is `Some tool` (the key handler has already
applied `ExecuteConfirmed`, see the comment at `src/main.rs:732`). -/
def handleExecuteCommand (app : App) (tool : ToolCall) : App × DispatchAction :=
  if app.config.safe_mode then
    let app := app.add_message
      (Message.mkSystem ("🔒 [SAFE MODE] " ++ safeModeDesc tool))
    ((app.do_transition .AnalysisComplete).1, .noDispatch)
  else if tool.is_mcp then
    if app.mcp_client_present then
      (app, .mcpCall tool.server tool.name tool.arguments)
    else
      let app := app.add_message (Message.mkSystem "❌ MCP client not available")
      ((app.do_transition .AnalysisComplete).1, .noDispatch)
  else
    ({ app with running_task := true }, .execTool tool)

/-- The display text built for a recognised tool call
(`src/main.rs:762-788`). -/
def displayText (tc : ToolCall) : String :=
  match tc.tool with
  | "run_cmd" => tc.command
  | "run_python" => "python:\n" ++ tc.code
  | "read_file" => "read_file: " ++ tc.path
  | "write_file" =>
    "write_file: " ++ tc.path ++ " (" ++ toString (strByteLen tc.content) ++ " bytes)"
  | "search" =>
    "search: " ++ tc.pattern ++ " in " ++
    (if tc.directory = "" then "." else tc.directory)
  | "mcp" =>
    "mcp: " ++ tc.server ++ "/" ++ tc.name ++ "\n" ++ jsonRender tc.arguments
  | _ => tc.debugRender

/-- Modelled from the spec: `src/executor.rs` is not in the source
snapshot.  §4.3 specifies the two safety screens and the suggestion
function only through their interfaces, so the embedding abstracts over
them; §4.2 likewise fixes only the interface of the reply parser
(`src/tool_call.rs`). -/
structure Collaborators where
  parse : String → ParsedResponse
  is_interactive : String → Bool
  suggestion : String → Option String
  is_dangerous : String → Bool
  is_destructive : ToolCall → Bool

/-- The refusal message of `src/main.rs:798-801`. -/
def interactiveRefusalMsg (cmd : String) (sug : Option String) : String :=
  "⚠️ Cannot run interactive command: `" ++ cmd ++ "`\n" ++
  sug.getD "This command requires an interactive terminal"

/-- The unknown-tool message of `src/main.rs:824-827`. -/
def blockedToolMsg (tool : String) : String :=
  "⛔ Blocked unknown tool: \x27" ++ tool ++
  "\x27\nAllowed: run_cmd, read_file, write_file, search, run_python"

/-- The Python-unavailable message of `src/main.rs:808-810`. -/
def pythonUnavailableMsg : String :=
  "⚠️ Python is not available on this system.\nPlease install Python 3 to use this feature."

/-- The `Event::ApiResponse(Ok(text))` arm of `run_loop`
(`src/main.rs:755-837`): push the model message, parse, screen, and
transition.  This arm dispatches no execution; it only stages
`current_tool` for a later confirmation. -/
def handleApiResponseOk (c : Collaborators) (app : App) (text : String) : App :=
  let app := app.add_message (Message.mkModel text)
  match c.parse text with
  | .toolCall tc =>
    let display := displayText tc
    if tc.isRunCmd && c.is_interactive tc.command then
      let app := app.add_message
        (Message.mkModel (interactiveRefusalMsg tc.command (c.suggestion tc.command)))
      (app.do_transition .TextResponseReceived).1
    else if tc.tool = "run_python" && !app.python_available then
      let app := app.add_message (Message.mkModel pythonUnavailableMsg)
      (app.do_transition .TextResponseReceived).1
    else
      let app := app.set_action_text display
      let app := { app with
        current_tool := some tc,
        dangerous_command_detected :=
          c.is_destructive tc || (tc.isRunCmd && c.is_dangerous tc.command) }
      if !tc.is_allowed_tool then
        let app := app.add_message (Message.mkSystem (blockedToolMsg tc.tool))
        (app.do_transition .TextResponseReceived).1
      else
        (app.do_transition .ToolCallReceived).1
  | .textResponse _ =>
    (app.do_transition .TextResponseReceived).1

/-! ## Quick mode (`src/main.rs:161-269`) -/

/-- The externally visible action taken by `run_quick_mode` once the model
reply has been parsed (`src/main.rs:201-266`).  `printText` and
`printCommand` only write to the terminal; `mcpCallTool` performs
`McpClient::call_tool` (starting the configured servers); `confirmExecute`
runs the confirmation dialog and then `execute_tool_async`. -/
inductive QuickAction where
  | printText (s : String)
  | printCommand (s : String)
  | mcpCallTool (server tname : String) (args : JsonVal)
  | confirmExecute (tool : ToolCall)

/-- The reply dispatch of `run_quick_mode` (`src/main.rs:201-266`) as a
function of the `execute` flag (`-x` vs `-q`) and the parsed reply. -/
def quickModeDispatch (execute : Bool) (pr : ParsedResponse) : QuickAction :=
  match pr with
  | .toolCall tool =>
    if tool.tool = "mcp" then .mcpCallTool tool.server tool.name tool.arguments
    else if execute then .confirmExecute tool
    else .printCommand tool.command
  | .textResponse text => .printText text

/-- Whether a quick-mode action executes anything or calls out on the
model's behalf (everything except printing). -/
def QuickAction.isExternalExec : QuickAction → Bool
  | .printText _ => false
  | .printCommand _ => false
  | .mcpCallTool _ _ _ => true
  | .confirmExecute _ => true

/-! ## MCP subclient (`src/mcp.rs`)

The client's interaction with the outside world (child-process reads,
HTTP round-trips) is modelled by an oracle: a list of `ReadOutcome`s
consumed one per read attempt, covering every exit path of the reader
thread in `McpClient::call` (`src/mcp.rs:363-408`).  An exhausted oracle
behaves like a silent child, i.e. a timeout. -/

/-- `McpTransport` (`src/mcp.rs:48-52`). -/
inductive McpTransport where
  | Stdio
  | Http
deriving DecidableEq

/-- `McpServerConfig` (`src/mcp.rs:56-71`).  `env` and `headers` only
shape the child environment and HTTP headers and are invisible in the
model; they are omitted. -/
structure McpServerConfig where
  transport : McpTransport
  command : String
  args : List String
  url : Option String
deriving DecidableEq

/-- The errors `McpError` (`src/mcp.rs:19-36`) reachable in the embedded
operations. -/
inductive McpError where
  | ServerNotFound (name : String)
  | ServerError (msg : String)
  | Timeout (secs : Nat)
  | Io
deriving DecidableEq

/-- `McpProcess` (`src/mcp.rs:112-115`): the per-server `request_id`
counter plus whether the child's stdout handle has been taken by a reader
thread and not restored (`child.stdout.take()` at `src/mcp.rs:363` vs the
restore at `src/mcp.rs:392`). -/
structure McpProcess where
  request_id : Nat
  stdout_taken : Bool
deriving DecidableEq

/-- One outcome of a read attempt by `McpClient::call`
(`src/mcp.rs:367-408`): the deadline elapses, `read_line` fails, or a
line arrives that is empty, unparsable, a JSON-RPC error, or a result. -/
inductive ReadOutcome where
  | timeout
  | ioErr
  | emptyLine
  | badJson (emsg : String)
  | rpcError (emsg : String)
  | ok (result : Option JsonVal)

/-- One outbound JSON-RPC request as written to the wire
(`src/mcp.rs:343-356`), tagged with the server it went to. -/
structure SentRequest where
  server : String
  id : Nat
  method : String
  params : Option JsonVal

/-- Association-list lookup, modelling `HashMap::get` on the process
table and the config (`src/mcp.rs:273` and `src/mcp.rs:339`). -/
def alLookup {β : Type} : List (String × β) → String → Option β
  | [], _ => none
  | (k, v) :: rest, key => if k = key then some v else alLookup rest key

/-- Association-list insert-or-replace, modelling `HashMap::insert`
(`src/mcp.rs:293`). -/
def alInsert {β : Type} (l : List (String × β)) (key : String) (v : β) :
    List (String × β) :=
  (key, v) :: l.filter (fun kv => decide (kv.1 ≠ key))

/-- Association-list removal, modelling `HashMap::remove`
(`src/mcp.rs:551`). -/
def alRemove {β : Type} (l : List (String × β)) (key : String) :
    List (String × β) :=
  l.filter (fun kv => decide (kv.1 ≠ key))

/-- The state of one `McpClient` (`src/mcp.rs:118-122`): the frozen
config, the process table, the read oracle, and the trace of requests
written so far (model instrumentation; the Rust client does not store
it). -/
structure McpState where
  config : List (String × McpServerConfig)
  processes : List (String × McpProcess)
  reads : List ReadOutcome
  sent : List SentRequest

/-- `DEFAULT_TIMEOUT.as_secs()` (`src/mcp.rs:15`); `McpClient::new` always
installs this timeout (`src/mcp.rs:253`), and `McpError::Timeout` carries
it (`src/mcp.rs:384`). -/
def timeoutSecs : Nat := 30

/-- `method.starts_with("notifications/")` (`src/mcp.rs:359`). -/
def isPrefixChars : List Char → List Char → Bool
  | [], _ => true
  | _ :: _, [] => false
  | a :: as_, b :: bs => if a = b then isPrefixChars as_ bs else false

/-- Whether a method is a write-only notification (`src/mcp.rs:359`). -/
def isNotification (method : String) : Bool :=
  isPrefixChars "notifications/".data method.data

/-- `McpClient::call` (`src/mcp.rs:331-409`): increment the counter,
write the request, and unless the method is a notification take the
child's stdout and read one line with a timeout.  On the timeout and
`read_line`-error paths the taken stdout is not restored into the
process entry. -/
def call (st : McpState) (server_name method : String)
    (params : Option JsonVal) : Except McpError (Option JsonVal) × McpState :=
  match alLookup st.processes server_name with
  | none => (.error (.ServerNotFound server_name), st)
  | some p =>
    let rid := p.request_id + 1
    let sent1 := st.sent ++ [⟨server_name, rid, method, params⟩]
    if isNotification method then
      (.ok none,
        { st with
          processes := alInsert st.processes server_name ⟨rid, p.stdout_taken⟩,
          sent := sent1 })
    else if p.stdout_taken then
      (.error (.ServerError "stdout not available"),
        { st with
          processes := alInsert st.processes server_name ⟨rid, true⟩,
          sent := sent1 })
    else
      let taken : McpState :=
        { st with
          processes := alInsert st.processes server_name ⟨rid, true⟩,
          sent := sent1,
          reads := st.reads.tail }
      let restored : McpState :=
        { st with
          processes := alInsert st.processes server_name ⟨rid, false⟩,
          sent := sent1,
          reads := st.reads.tail }
      match st.reads.headD .timeout with
      | .timeout => (.error (.Timeout timeoutSecs), taken)
      | .ioErr => (.error .Io, taken)
      | .emptyLine => (.error (.ServerError "Empty response"), restored)
      | .badJson e => (.error (.ServerError ("Invalid JSON: " ++ e)), restored)
      | .rpcError m => (.error (.ServerError m), restored)
      | .ok r => (.ok r, restored)

/-- The `initialize` request parameters (`src/mcp.rs:317-324`);
`cargoPkgVersion` stands for the build-time `CARGO_PKG_VERSION`, whose
value decides no claim. -/
def cargoPkgVersion : String := "0.1.0"

/-- The params object sent by `McpClient::initialize`
(`src/mcp.rs:317-324`). -/
def initParams : JsonVal :=
  .obj [("protocolVersion", .str "2024-11-05"),
        ("capabilities", .obj []),
        ("clientInfo", .obj [("name", .str "sabi-tui"),
                             ("version", .str cargoPkgVersion)])]

/-- `McpClient::initialize` (`src/mcp.rs:316-328`): the handshake request
followed by the `notifications/initialized` notification. -/
def initServer (st : McpState) (name : String) :
    Except McpError Unit × McpState :=
  match call st name "initialize" (some initParams) with
  | (.error e, st) => (.error e, st)
  | (.ok _, st) =>
    match call st name "notifications/initialized" none with
    | (.error e, st) => (.error e, st)
    | (.ok _, st) => (.ok (), st)

/-- `McpClient::start_server` (`src/mcp.rs:268-306`): HTTP servers are
already "ready"; for stdio the child is spawned, a fresh process entry
with `request_id = 0` is inserted (replacing any previous entry), and the
initialize handshake runs.  Spawning itself is modelled as succeeding;
handshake failures flow from the read oracle. -/
def start_server (st : McpState) (name : String) :
    Except McpError Unit × McpState :=
  match alLookup st.config name with
  | none => (.error (.ServerNotFound name), st)
  | some cfg =>
    if cfg.transport = .Http then (.ok (), st)
    else
      let st := { st with processes := alInsert st.processes name ⟨0, false⟩ }
      initServer st name

/-- `McpClient::stop_server` (`src/mcp.rs:549-555`): kill the child (no
observable effect in the model) and drop the process entry; always
`Ok`. -/
def stop_server (st : McpState) (name : String) :
    Except McpError Unit × McpState :=
  (.ok (), { st with processes := alRemove st.processes name })

/-- `McpClient::restart_server` (`src/mcp.rs:309-313`): stop, sleep
100 ms (no observable effect in the model), start. -/
def restart_server (st : McpState) (name : String) :
    Except McpError Unit × McpState :=
  match stop_server st name with
  | (.error e, st) => (.error e, st)
  | (.ok _, st) => start_server st name

/-- `McpClient::call_http` (`src/mcp.rs:439-480`): one POST with request
id fixed at 1; the outcome comes from the oracle (`timeout`/`ioErr` stand
for transport-level failures including non-2xx statuses). -/
def call_http (st : McpState) (server_name : String) (cfg : McpServerConfig)
    (method : String) (params : Option JsonVal) :
    Except McpError (Option JsonVal) × McpState :=
  match cfg.url with
  | none => (.error (.ServerError "No URL configured"), st)
  | some _ =>
    let st1 : McpState :=
      { st with
        sent := st.sent ++ [⟨server_name, 1, method, params⟩],
        reads := st.reads.tail }
    match st.reads.headD .timeout with
    | .timeout => (.error (.ServerError "HTTP error: timeout"), st1)
    | .ioErr => (.error (.ServerError "HTTP error: send failed"), st1)
    | .emptyLine => (.error (.ServerError "Invalid JSON: empty body"), st1)
    | .badJson e => (.error (.ServerError ("Invalid JSON: " ++ e)), st1)
    | .rpcError m => (.error (.ServerError m), st1)
    | .ok r => (.ok r, st1)

/-- `McpClient::call_with_retry` (`src/mcp.rs:412-436`): HTTP goes
straight to `call_http`; for stdio, any error from `call` triggers one
`restart_server` followed by one re-issue of the same method and params.
A failed restart returns the first error; otherwise the second call's
result (success or error) is final. -/
def call_with_retry (st : McpState) (server_name method : String)
    (params : Option JsonVal) : Except McpError (Option JsonVal) × McpState :=
  match alLookup st.config server_name with
  | none => (.error (.ServerNotFound server_name), st)
  | some cfg =>
    if cfg.transport = .Http then call_http st server_name cfg method params
    else
      match call st server_name method params with
      | (.ok r, st) => (.ok r, st)
      | (.error e, st) =>
        match restart_server st server_name with
        | (.error _, st) => (.error e, st)
        | (.ok _, st) => call st server_name method params

/-- Ids of the requests sent to one server, in wire order. -/
def idsTo (name : String) (l : List SentRequest) : List Nat :=
  (l.filter (fun r => decide (r.server = name))).map (fun r => r.id)

/-- Strict monotonicity of a list of naturals. -/
def strictlyIncreasing : List Nat → Bool
  | [] => true
  | [_] => true
  | a :: b :: rest => a < b && strictlyIncreasing (b :: rest)

/-- A run of plain `call`s against one server (no restarts in between),
used to state the per-process-lifetime monotonicity of request ids. -/
def runCalls (st : McpState) (name : String) :
    List (String × Option JsonVal) → McpState
  | [] => st
  | (m, ps) :: rest => runCalls (call st name m ps).2 name rest

/-! ## Concrete fixtures instantiating the theorems below -/

/-- A concrete app used to instantiate the hypotheses of the claims
below: state `Input`, one line of input, defaults elsewhere. -/
def sampleApp : App :=
  { state := .Input
    input_textarea := ["hello"]
    action_textarea := []
    messages := []
    current_command := none
    execution_output := ""
    error_message := none
    spinner_frame := 0
    should_quit := false
    scroll_offset := 0
    dangerous_command_detected := false
    config := ⟨false, []⟩
    current_tool := none
    python_available := true
    mcp_client_present := false
    running_task := false }

/-- A concrete `run_cmd` tool call. -/
def sampleRunCmd : ToolCall :=
  ⟨"run_cmd", "ls", "", "", "", "", "", "", "", .obj []⟩

/-- A safe-mode app in state `Executing` holding a pending `run_cmd ls`,
instantiating the hypotheses of the safe-mode claim. -/
def sampleSafeApp : App :=
  { sampleApp with
    state := .Executing
    config := ⟨true, []⟩
    current_tool := some sampleRunCmd }

/-- Collaborators instantiating the interactive-refusal claim: the parser
always yields `vim notes.txt` and the detector flags it. -/
def sampleCollab : Collaborators :=
  ⟨fun _ => .toolCall ⟨"run_cmd", "vim notes.txt", "", "", "", "", "", "", "", .obj []⟩,
   fun _ => true,
   fun _ => some "Use cat notes.txt instead",
   fun _ => false,
   fun _ => false⟩

/-- An app in state `Thinking`, awaiting the model reply. -/
def sampleThinkingApp : App :=
  { sampleApp with state := .Thinking }

/-- A concrete `mcp` tool call reaching the MCP branch of quick mode. -/
def sampleMcpTool : ToolCall :=
  ⟨"mcp", "", "", "", "", "", "", "ctx", "search_docs", .obj []⟩

/-- The stdio config used by the MCP scenarios. -/
def sampleCfg : McpServerConfig := ⟨.Stdio, "srv", [], none⟩

/-- Initial MCP state for the retry scenario: server `"s"` with a running
process, and an oracle making the first call time out, the restart
handshake succeed, and the retried call fail with a JSON-RPC error. -/
def sampleMcpSt : McpState :=
  { config := [("s", sampleCfg)]
    processes := [("s", ⟨0, false⟩)]
    reads := [.timeout, .ok none, .rpcError "boom"]
    sent := [] }

/-- A state whose server process has lost its stdout to a timed-out
reader thread. -/
def samplePoisonedSt : McpState :=
  { config := [("s", sampleCfg)]
    processes := [("s", ⟨1, true⟩)]
    reads := [.ok none]
    sent := [] }

/-- A session that starts server `"s"` and then performs one
`call_with_retry` whose first call times out: the oracle feeds the
initial handshake, the timeout, the post-restart handshake, and a final
JSON-RPC error. -/
def sessionSt : McpState :=
  { config := [("s", sampleCfg)]
    processes := []
    reads := [.ok none, .timeout, .ok none, .rpcError "x"]
    sent := [] }

/-- The state at the end of that session. -/
def sessionEnd : McpState :=
  (call_with_retry (start_server sessionSt "s").2 "s" "tools/call" none).2

/-! ## Theorems about `App::submit_input` and `App::transition` -/

/-- Claim C3: from state `Input`, submitting input whose trimmed form is
non-empty returns `true`, moves the state to `Thinking`, appends exactly
one user message whose content is the trimmed input, and leaves the input
buffer empty. -/
theorem submit_nonempty_input_ok (a : App)
    (hs : a.state = .Input) (he : a.is_input_empty = false) :
    a.submit_input.2 = true ∧
    a.submit_input.1.state = .Thinking ∧
    a.submit_input.1.messages = a.messages ++ [Message.mkUser a.get_input_text] ∧
    a.submit_input.1.is_input_empty = true := by
  simp only [App.submit_input, he, Bool.false_eq_true, if_false,
    App.do_transition, App.clear_input, App.add_message, hs, transition]
  simp [App.is_input_empty, App.get_input_text, joinLines, strTrim]

/-- Witness for `submit_nonempty_input_ok` at `sampleApp`. -/
theorem submit_nonempty_input_ok_witness :
    sampleApp.state = .Input ∧ sampleApp.is_input_empty = false ∧
    (sampleApp.submit_input.2 = true ∧
     sampleApp.submit_input.1.state = .Thinking ∧
     sampleApp.submit_input.1.messages =
       sampleApp.messages ++ [Message.mkUser sampleApp.get_input_text] ∧
     sampleApp.submit_input.1.is_input_empty = true) :=
  ⟨rfl, rfl, submit_nonempty_input_ok sampleApp rfl rfl⟩

/-- Claim C4: submitting input whose trimmed form is empty returns
`false` and leaves the state and the message log unchanged (in fact the
whole app is unchanged), in every state. -/
theorem submit_empty_input_rejected (a : App)
    (he : a.is_input_empty = true) :
    a.submit_input.2 = false ∧
    a.submit_input.1.state = a.state ∧
    a.submit_input.1.messages = a.messages ∧
    a.submit_input.1 = a := by
  have hig : transition a.state (.SubmitInput true) = .Ignored := by
    cases a.state <;> rfl
  simp only [App.submit_input, he, if_true, App.do_transition, hig]
  simp

/-- Witness for `submit_empty_input_rejected` on an app with white-space
input. -/
theorem submit_empty_input_rejected_witness :
    ({ sampleApp with input_textarea := ["  ", "\t"] } : App).is_input_empty = true ∧
    (({ sampleApp with input_textarea := ["  ", "\t"] } : App).submit_input.2 = false ∧
     ({ sampleApp with input_textarea := ["  ", "\t"] } : App).submit_input.1.state =
       ({ sampleApp with input_textarea := ["  ", "\t"] } : App).state ∧
     ({ sampleApp with input_textarea := ["  ", "\t"] } : App).submit_input.1.messages =
       ({ sampleApp with input_textarea := ["  ", "\t"] } : App).messages ∧
     ({ sampleApp with input_textarea := ["  ", "\t"] } : App).submit_input.1 =
       { sampleApp with input_textarea := ["  ", "\t"] }) :=
  ⟨rfl, submit_empty_input_rejected _ rfl⟩

/-- Claim C5: on a state/event pair outside the transition table — no
`Success` row — `App::transition` returns `false` and never mutates the
state: an `Ignored` result leaves the whole app unchanged, and an `Error`
result only sets the error banner. -/
theorem illegal_transition_no_mutation (a : App) (e : StateEvent)
    (h : ∀ s2, transition a.state e ≠ .Success s2) :
    (a.do_transition e).2 = false ∧
    (a.do_transition e).1.state = a.state ∧
    (a.do_transition e).1.messages = a.messages ∧
    (transition a.state e = .Ignored → (a.do_transition e).1 = a) ∧
    (∀ msg, transition a.state e = .Error msg →
      (a.do_transition e).1.error_message = some msg) := by
  rcases htr : transition a.state e with s2 | _ | msg
  · exact absurd htr (h s2)
  · simp [App.do_transition, htr]
  · simp [App.do_transition, htr, App.set_error]

/-- Witness for `illegal_transition_no_mutation`: `ToolCallReceived` in
state `Input` is outside the table. -/
theorem illegal_transition_no_mutation_witness :
    (∀ s2, transition sampleApp.state .ToolCallReceived ≠ .Success s2) ∧
    ((sampleApp.do_transition .ToolCallReceived).2 = false ∧
     (sampleApp.do_transition .ToolCallReceived).1.state = sampleApp.state ∧
     (sampleApp.do_transition .ToolCallReceived).1.messages = sampleApp.messages ∧
     (transition sampleApp.state .ToolCallReceived = .Ignored →
       (sampleApp.do_transition .ToolCallReceived).1 = sampleApp) ∧
     (∀ msg, transition sampleApp.state .ToolCallReceived = .Error msg →
       (sampleApp.do_transition .ToolCallReceived).1.error_message = some msg)) := by
  have h : ∀ s2, transition sampleApp.state .ToolCallReceived ≠ .Success s2 := by
    intro s2 hco
    rw [show transition sampleApp.state .ToolCallReceived = .Ignored from rfl] at hco
    cases hco
  exact ⟨h, illegal_transition_no_mutation sampleApp .ToolCallReceived h⟩

/-- Claim C9: `submit_input` appends the user message and clears the
buffer before attempting the transition, so in any state other than
`Input` a non-empty submission returns `false` and leaves the state
unchanged while the log still grows by exactly one user message and the
buffer is emptied. -/
theorem submit_nonempty_outside_Input (a : App)
    (hs : a.state ≠ .Input) (he : a.is_input_empty = false) :
    a.submit_input.2 = false ∧
    a.submit_input.1.state = a.state ∧
    a.submit_input.1.messages = a.messages ++ [Message.mkUser a.get_input_text] ∧
    a.submit_input.1.is_input_empty = true := by
  have hig : transition a.state (.SubmitInput false) = .Ignored := by
    cases hcs : a.state <;> first | rfl | exact absurd hcs hs
  simp only [App.submit_input, he, Bool.false_eq_true, if_false,
    App.do_transition, App.clear_input, App.add_message, hig]
  simp [App.is_input_empty, App.get_input_text, joinLines, strTrim]

/-- Witness for `submit_nonempty_outside_Input` in state `Executing`. -/
theorem submit_nonempty_outside_Input_witness :
    ({ sampleApp with state := .Executing } : App).state ≠ .Input ∧
    ({ sampleApp with state := .Executing } : App).is_input_empty = false ∧
    (({ sampleApp with state := .Executing } : App).submit_input.2 = false ∧
     ({ sampleApp with state := .Executing } : App).submit_input.1.state =
       ({ sampleApp with state := .Executing } : App).state ∧
     ({ sampleApp with state := .Executing } : App).submit_input.1.messages =
       ({ sampleApp with state := .Executing } : App).messages ++
         [Message.mkUser ({ sampleApp with state := .Executing } : App).get_input_text] ∧
     ({ sampleApp with state := .Executing } : App).submit_input.1.is_input_empty = true) :=
  ⟨by simp, rfl, submit_nonempty_outside_Input _ (by simp) rfl⟩

/-! ## Theorems about the `run_loop` fragments -/

/-- Claim C6: with safe mode enabled, confirming a pending tool call
dispatches nothing (no executor task, no MCP call, no running task),
appends exactly one system message `🔒 [SAFE MODE] Would …`, and returns
the state to `Input`. -/
theorem safe_mode_executes_nothing (app : App) (tool : ToolCall)
    (hsafe : app.config.safe_mode = true)
    (_htool : app.current_tool = some tool)
    (hstate : app.state = .Executing) :
    (handleExecuteCommand app tool).2 = .noDispatch ∧
    (handleExecuteCommand app tool).1.messages =
      app.messages ++ [Message.mkSystem ("🔒 [SAFE MODE] " ++ safeModeDesc tool)] ∧
    (∃ rest, safeModeDesc tool = "Would " ++ rest) ∧
    (handleExecuteCommand app tool).1.state = .Input ∧
    (handleExecuteCommand app tool).1.running_task = app.running_task := by
  have hdesc : ∃ rest, safeModeDesc tool = "Would " ++ rest := by
    unfold safeModeDesc
    split
    · exact ⟨"run: " ++ tool.command, rfl⟩
    · exact ⟨"run Python:\n" ++ tool.code, rfl⟩
    · exact ⟨"read: " ++ tool.path, rfl⟩
    · exact ⟨"write " ++ toString (strByteLen tool.content) ++ " bytes to: " ++ tool.path, rfl⟩
    · exact ⟨"search \x27" ++ tool.pattern ++ "\x27 in " ++ tool.directory, rfl⟩
    · exact ⟨"call MCP: " ++ tool.server ++ "/" ++ tool.name, rfl⟩
    · exact ⟨"execute: " ++ tool.debugRender, rfl⟩
  refine ⟨?_, ?_, hdesc, ?_, ?_⟩ <;>
    simp [handleExecuteCommand, hsafe, App.add_message, App.do_transition,
      hstate, transition]

/-- Witness for `safe_mode_executes_nothing` on a safe-mode app holding a
pending `run_cmd ls`. -/
theorem safe_mode_executes_nothing_witness :
    sampleSafeApp.config.safe_mode = true ∧
    sampleSafeApp.current_tool = some sampleRunCmd ∧
    sampleSafeApp.state = .Executing ∧
    ((handleExecuteCommand sampleSafeApp sampleRunCmd).2 = .noDispatch ∧
     (handleExecuteCommand sampleSafeApp sampleRunCmd).1.messages =
       sampleSafeApp.messages ++
         [Message.mkSystem ("🔒 [SAFE MODE] " ++ safeModeDesc sampleRunCmd)] ∧
     (∃ rest, safeModeDesc sampleRunCmd = "Would " ++ rest) ∧
     (handleExecuteCommand sampleSafeApp sampleRunCmd).1.state = .Input ∧
     (handleExecuteCommand sampleSafeApp sampleRunCmd).1.running_task =
       sampleSafeApp.running_task) :=
  ⟨rfl, rfl, rfl, safe_mode_executes_nothing sampleSafeApp sampleRunCmd rfl rfl rfl⟩

/-- Claim C7: a model reply parsed as a `run_cmd` tool call whose command
the interactive detector flags is refused: nothing is staged for
execution (`current_tool` and the running task are untouched), a
model-role message carrying the refusal and the suggestion is appended
after the reply itself, and the state returns to `Input`. -/
theorem interactive_command_refused (c : Collaborators) (app : App)
    (text : String) (tc : ToolCall)
    (hp : c.parse text = .toolCall tc)
    (hcmd : tc.tool = "run_cmd")
    (hint : c.is_interactive tc.command = true)
    (hstate : app.state = .Thinking ∨ app.state = .Finalizing) :
    (handleApiResponseOk c app text).state = .Input ∧
    (handleApiResponseOk c app text).messages =
      app.messages ++ [Message.mkModel text,
        Message.mkModel (interactiveRefusalMsg tc.command (c.suggestion tc.command))] ∧
    (handleApiResponseOk c app text).current_tool = app.current_tool ∧
    (handleApiResponseOk c app text).running_task = app.running_task := by
  rcases hstate with h | h <;>
    simp [handleApiResponseOk, hp, ToolCall.isRunCmd, hcmd, hint,
      App.add_message, App.do_transition, h, transition]

/-- Witness for `interactive_command_refused` on a thinking app receiving
a `vim` tool call. -/
theorem interactive_command_refused_witness :
    sampleCollab.parse "reply" =
      .toolCall ⟨"run_cmd", "vim notes.txt", "", "", "", "", "", "", "", .obj []⟩ ∧
    sampleCollab.is_interactive "vim notes.txt" = true ∧
    sampleThinkingApp.state = .Thinking ∧
    ((handleApiResponseOk sampleCollab sampleThinkingApp "reply").state = .Input ∧
     (handleApiResponseOk sampleCollab sampleThinkingApp "reply").messages =
       sampleThinkingApp.messages ++
         [Message.mkModel "reply",
          Message.mkModel (interactiveRefusalMsg "vim notes.txt"
            (sampleCollab.suggestion "vim notes.txt"))] ∧
     (handleApiResponseOk sampleCollab sampleThinkingApp "reply").current_tool =
       sampleThinkingApp.current_tool ∧
     (handleApiResponseOk sampleCollab sampleThinkingApp "reply").running_task =
       sampleThinkingApp.running_task) :=
  ⟨rfl, rfl, rfl,
   interactive_command_refused sampleCollab sampleThinkingApp
     "reply" ⟨"run_cmd", "vim notes.txt", "", "", "", "", "", "", "", .obj []⟩
     rfl rfl rfl (Or.inl rfl)⟩

/-- Counterexample to claim C8 as stated: in query mode (`-q`,
`execute = false`) a reply that parses to an `mcp` tool call makes the
program call the MCP server on the model's behalf
(`McpClient::call_tool`, `src/main.rs:203-216`), an execution side
effect. -/
theorem quick_mode_mcp_counterexample :
    quickModeDispatch false (.toolCall sampleMcpTool) =
      .mcpCallTool "ctx" "search_docs" (.obj []) ∧
    (quickModeDispatch false (.toolCall sampleMcpTool)).isExternalExec = true :=
  ⟨rfl, rfl⟩

/-- Claim C8 as amended: in query mode a text reply is printed, a
non-`mcp` tool call is only printed (its command echoed, nothing
executed), but an `mcp` tool call is dispatched to the MCP server even in
query mode. -/
theorem quick_mode_dispatch_characterised (pr : ParsedResponse) :
    (∀ tool, pr = .toolCall tool → tool.tool ≠ "mcp" →
      quickModeDispatch false pr = .printCommand tool.command ∧
      (quickModeDispatch false pr).isExternalExec = false) ∧
    (∀ tool, pr = .toolCall tool → tool.tool = "mcp" →
      quickModeDispatch false pr =
        .mcpCallTool tool.server tool.name tool.arguments) ∧
    (∀ text, pr = .textResponse text →
      quickModeDispatch false pr = .printText text ∧
      (quickModeDispatch false pr).isExternalExec = false) := by
  refine ⟨?_, ?_, ?_⟩
  · intro tool hpr hne
    subst hpr
    simp [quickModeDispatch, hne, QuickAction.isExternalExec]
  · intro tool hpr hmcp
    subst hpr
    simp [quickModeDispatch, hmcp]
  · intro text hpr
    subst hpr
    simp [quickModeDispatch, QuickAction.isExternalExec]

/-- Witness for `quick_mode_dispatch_characterised` on a `run_cmd ls`
tool call. -/
theorem quick_mode_dispatch_characterised_witness :
    sampleRunCmd.tool ≠ "mcp" ∧
    (quickModeDispatch false (.toolCall sampleRunCmd) = .printCommand "ls" ∧
     (quickModeDispatch false (.toolCall sampleRunCmd)).isExternalExec = false) :=
  ⟨by decide,
   (quick_mode_dispatch_characterised (.toolCall sampleRunCmd)).1
     sampleRunCmd rfl (by decide)⟩

/-! ## Theorems about the MCP subclient -/

/-- Looking up a freshly inserted process entry. -/
theorem alLookup_insert_self {β : Type} (l : List (String × β)) (k : String)
    (v : β) : alLookup (alInsert l k v) k = some v := by
  simp [alInsert, alLookup]

/-- Claim C1: for a configured stdio server, `call_with_retry` performs at
most one retry.  A first success is returned as is; after a first failure
followed by a successful restart, the result is exactly that of
re-issuing the same method with the same params (so a second success is
returned, and a second error is returned); and a failed restart returns
the first error. -/
theorem call_with_retry_at_most_one_retry (st : McpState)
    (name method : String) (params : Option JsonVal) (cfg : McpServerConfig)
    (hc : alLookup st.config name = some cfg)
    (ht : cfg.transport = .Stdio) :
    (∀ v st1, call st name method params = (.ok v, st1) →
      call_with_retry st name method params = (.ok v, st1)) ∧
    (∀ e st1 st2, call st name method params = (.error e, st1) →
      restart_server st1 name = (.ok (), st2) →
      call_with_retry st name method params = call st2 name method params) ∧
    (∀ e st1 st2 v st3, call st name method params = (.error e, st1) →
      restart_server st1 name = (.ok (), st2) →
      call st2 name method params = (.ok v, st3) →
      call_with_retry st name method params = (.ok v, st3)) ∧
    (∀ e st1 st2 e2 st3, call st name method params = (.error e, st1) →
      restart_server st1 name = (.ok (), st2) →
      call st2 name method params = (.error e2, st3) →
      call_with_retry st name method params = (.error e2, st3)) ∧
    (∀ e st1 e2 st2, call st name method params = (.error e, st1) →
      restart_server st1 name = (.error e2, st2) →
      call_with_retry st name method params = (.error e, st2)) := by
  have hred : call_with_retry st name method params =
      (match call st name method params with
       | (.ok r, st1) => (.ok r, st1)
       | (.error e, st1) =>
         match restart_server st1 name with
         | (.error _, st2) => (.error e, st2)
         | (.ok _, st2) => call st2 name method params) := by
    rw [call_with_retry]
    simp only [hc, ht]
    simp
  refine ⟨?_, ?_, ?_, ?_, ?_⟩
  · intro v st1 h1
    rw [hred]
    simp only [h1]
  · intro e st1 st2 h1 h2
    rw [hred]
    simp only [h1, h2]
  · intro e st1 st2 v st3 h1 h2 h3
    rw [hred]
    simp only [h1, h2, h3]
  · intro e st1 st2 e2 st3 h1 h2 h3
    rw [hred]
    simp only [h1, h2, h3]
  · intro e st1 e2 st2 h1 h2
    rw [hred]
    simp only [h1, h2]

/-- Witness for `call_with_retry_at_most_one_retry`: first call times
out, restart succeeds, retried call fails, and the second error is
returned. -/
theorem call_with_retry_at_most_one_retry_witness :
    alLookup sampleMcpSt.config "s" = some sampleCfg ∧
    sampleCfg.transport = .Stdio ∧
    (call sampleMcpSt "s" "tools/call" none).1 = .error (.Timeout timeoutSecs) ∧
    (call_with_retry sampleMcpSt "s" "tools/call" none).1 =
      .error (.ServerError "boom") := by
  refine ⟨rfl, rfl, rfl, ?_⟩
  have h := (call_with_retry_at_most_one_retry sampleMcpSt "s" "tools/call"
    none sampleCfg rfl rfl).2.2.2.1
  rw [h _ _ _ _ _ rfl rfl rfl]

/-- Claim C10: a `Timeout` from `call` leaves the server's process entry
with its stdout handle taken (never restored), and every later
non-notification `call` on that entry fails with the server error
`stdout not available` — still incrementing the counter and keeping the
handle taken — until a restart replaces the entry. -/
theorem timeout_poisons_stdout :
    (∀ st name method params st2,
      call st name method params = (.error (.Timeout timeoutSecs), st2) →
      ∃ p2, alLookup st2.processes name = some p2 ∧ p2.stdout_taken = true) ∧
    (∀ st name p method params,
      alLookup st.processes name = some p →
      p.stdout_taken = true →
      isNotification method = false →
      (call st name method params).1 = .error (.ServerError "stdout not available") ∧
      alLookup (call st name method params).2.processes name =
        some ⟨p.request_id + 1, true⟩) := by
  constructor
  · intro st name method params st2 h
    rcases hl : alLookup st.processes name with _ | p
    · rw [call] at h
      simp [hl] at h
    · cases hn : isNotification method with
      | true =>
        rw [call] at h
        simp [hl, hn] at h
      | false =>
        cases hstk : p.stdout_taken with
        | true =>
          rw [call] at h
          simp [hl, hn, hstk] at h
        | false =>
          rcases hreads : st.reads with _ | ⟨o, rest⟩
          · rw [call] at h
            simp [hl, hn, hstk, hreads] at h
            subst h
            exact ⟨⟨p.request_id + 1, true⟩, alLookup_insert_self _ _ _, rfl⟩
          · cases o <;> (rw [call] at h; simp [hl, hn, hstk, hreads] at h)
            subst h
            exact ⟨⟨p.request_id + 1, true⟩, alLookup_insert_self _ _ _, rfl⟩
  · intro st name p method params hl hstk hn
    rw [call]
    simp [hl, hn, hstk, alLookup_insert_self]

/-- Witness for `timeout_poisons_stdout`: the state after the sample
timeout has the stdout taken, and a later call fails with
`stdout not available`. -/
theorem timeout_poisons_stdout_witness :
    call sampleMcpSt "s" "tools/call" none =
      (.error (.Timeout timeoutSecs), (call sampleMcpSt "s" "tools/call" none).2) ∧
    (∃ p2, alLookup (call sampleMcpSt "s" "tools/call" none).2.processes "s" =
      some p2 ∧ p2.stdout_taken = true) ∧
    (alLookup samplePoisonedSt.processes "s" = some ⟨1, true⟩ ∧
     isNotification "tools/list" = false ∧
     (call samplePoisonedSt "s" "tools/list" none).1 =
       .error (.ServerError "stdout not available") ∧
     alLookup (call samplePoisonedSt "s" "tools/list" none).2.processes "s" =
       some ⟨2, true⟩) := by
  refine ⟨rfl, ?_, rfl, rfl, ?_, ?_⟩
  · exact timeout_poisons_stdout.1 sampleMcpSt "s" "tools/call" none _ rfl
  · exact (timeout_poisons_stdout.2 samplePoisonedSt "s" ⟨1, true⟩
      "tools/list" none rfl rfl rfl).1
  · exact (timeout_poisons_stdout.2 samplePoisonedSt "s" ⟨1, true⟩
      "tools/list" none rfl rfl rfl).2

/-- Each `call` on a server with a live process entry sends exactly one
request carrying id `request_id + 1` and stores the incremented counter
back, whatever the read outcome. -/
theorem call_step (st : McpState) (name method : String)
    (params : Option JsonVal) (p : McpProcess)
    (hl : alLookup st.processes name = some p) :
    (call st name method params).2.sent =
      st.sent ++ [⟨name, p.request_id + 1, method, params⟩] ∧
    ∃ q, alLookup (call st name method params).2.processes name = some q ∧
      q.request_id = p.request_id + 1 := by
  cases hn : isNotification method with
  | true =>
    rw [call]
    simp [hl, hn, alLookup_insert_self]
  | false =>
    cases hstk : p.stdout_taken with
    | true =>
      rw [call]
      simp [hl, hn, hstk, alLookup_insert_self]
    | false =>
      rcases hreads : st.reads with _ | ⟨o, rest⟩
      · rw [call]
        simp [hl, hn, hstk, hreads, alLookup_insert_self]
      · cases o <;> (rw [call]; simp [hl, hn, hstk, hreads, alLookup_insert_self])

/-- `call` only ever appends to the wire trace. -/
theorem call_sent_extends (st : McpState) (name m : String)
    (ps : Option JsonVal) :
    ∃ l, (call st name m ps).2.sent = st.sent ++ l := by
  rcases hl : alLookup st.processes name with _ | p
  · refine ⟨[], ?_⟩
    rw [call]
    simp [hl]
  · exact ⟨[⟨name, p.request_id + 1, m, ps⟩], (call_step st name m ps p hl).1⟩

/-- A run of `call`s only ever appends to the wire trace. -/
theorem runCalls_sent_extends (ms : List (String × Option JsonVal)) :
    ∀ st name, ∃ l, (runCalls st name ms).sent = st.sent ++ l := by
  induction ms with
  | nil =>
    intro st name
    exact ⟨[], by simp [runCalls]⟩
  | cons head rest ih =>
    intro st name
    obtain ⟨m, ps⟩ := head
    obtain ⟨l1, h1⟩ := call_sent_extends st name m ps
    obtain ⟨l2, h2⟩ := ih (call st name m ps).2 name
    exact ⟨l1 ++ l2, by rw [runCalls, h2, h1, List.append_assoc]⟩

/-- `List.range'` with step 1 is strictly increasing. -/
theorem strictlyIncreasing_range' (n : Nat) :
    ∀ s, strictlyIncreasing (List.range' s n) = true := by
  induction n with
  | zero => intro s; rfl
  | succ m ih =>
    intro s
    rw [List.range'_succ]
    cases m with
    | zero => rfl
    | succ k =>
      rw [List.range'_succ]
      have h2 := ih (s + 1)
      rw [List.range'_succ] at h2
      simp only [strictlyIncreasing]
      rw [h2]
      simp

/-- The ids sent to a server by an uninterrupted run of `call`s continue
the counter: they are the consecutive naturals starting just above the
process's current `request_id`. -/
theorem runCalls_ids (ms : List (String × Option JsonVal)) :
    ∀ st name p, alLookup st.processes name = some p →
      idsTo name ((runCalls st name ms).sent.drop st.sent.length) =
        List.range' (p.request_id + 1) ms.length := by
  induction ms with
  | nil =>
    intro st name p _
    simp [runCalls, List.drop_length, idsTo]
  | cons head rest ih =>
    intro st name p hl
    obtain ⟨m, ps⟩ := head
    obtain ⟨hsent, q, hq, hqid⟩ := call_step st name m ps p hl
    obtain ⟨l2, h2⟩ := runCalls_sent_extends rest (call st name m ps).2 name
    have hih := ih (call st name m ps).2 name q hq
    rw [h2, hsent] at hih
    rw [List.drop_left] at hih
    rw [hqid] at hih
    simp only [runCalls]
    rw [h2, hsent, List.append_assoc, List.drop_left]
    simp only [List.length_cons, List.range'_succ]
    simp only [List.singleton_append, idsTo, List.filter_cons] at hih ⊢
    simp [hih]

/-- Counterexample to claim C2 as stated: in a session containing one
automatic restart the ids sent to server `"s"` are `1,2,3,1,2,3` — the
counter is reset to 0 by `start_server` (`src/mcp.rs:297`), so ids are
not strictly monotonic across the whole session. -/
theorem request_ids_reset_on_restart :
    idsTo "s" sessionEnd.sent = [1, 2, 3, 1, 2, 3] ∧
    strictlyIncreasing (idsTo "s" sessionEnd.sent) = false :=
  ⟨rfl, rfl⟩

/-- Claim C2 as amended: the per-server counter starts at 0 and each
outbound request increments it, so the ids sent during the lifetime of a
single server process are the consecutive naturals continuing the
counter — strictly monotonically increasing; but `start_server` installs
a fresh counter, so after a restart the first request carries id 1
again. -/
theorem request_ids_monotonic_per_process :
    (∀ st name p method params, alLookup st.processes name = some p →
      (call st name method params).2.sent =
        st.sent ++ [⟨name, p.request_id + 1, method, params⟩] ∧
      ∃ q, alLookup (call st name method params).2.processes name = some q ∧
        q.request_id = p.request_id + 1) ∧
    (∀ ms st name p, alLookup st.processes name = some p →
      idsTo name ((runCalls st name ms).sent.drop st.sent.length) =
        List.range' (p.request_id + 1) ms.length ∧
      strictlyIncreasing
        (idsTo name ((runCalls st name ms).sent.drop st.sent.length)) = true) ∧
    (∀ st name cfg, alLookup st.config name = some cfg →
      cfg.transport = .Stdio →
      ((start_server st name).2.sent.drop st.sent.length).head? =
        some ⟨name, 1, "initialize", some initParams⟩) := by
  refine ⟨?_, ?_, ?_⟩
  · intro st name p method params hl
    exact call_step st name method params p hl
  · intro ms st name p hl
    have h := runCalls_ids ms st name p hl
    refine ⟨h, ?_⟩
    rw [h]
    exact strictlyIncreasing_range' ms.length (p.request_id + 1)
  · intro st name cfg hc ht
    rw [start_server]
    simp only [hc, ht]
    have hl0 : alLookup (alInsert st.processes name ⟨0, false⟩) name =
        some ⟨0, false⟩ := alLookup_insert_self _ _ _
    obtain ⟨hsent1, q, hq, hqid⟩ :=
      call_step { st with processes := alInsert st.processes name ⟨0, false⟩ }
        name "initialize" (some initParams) ⟨0, false⟩ hl0
    rcases hcall :
        call { st with processes := alInsert st.processes name ⟨0, false⟩ }
          name "initialize" (some initParams) with ⟨res, st2⟩
    have hsent2 : st2.sent =
        st.sent ++ [⟨name, 1, "initialize", some initParams⟩] := by
      have h1 := hsent1
      rw [hcall] at h1
      simpa using h1
    cases res with
    | error e =>
      simp [initServer, hcall, hsent2, List.drop_left]
    | ok u =>
      obtain ⟨l2, hl2⟩ :=
        call_sent_extends st2 name "notifications/initialized" none
      rcases hcall2 :
          call st2 name "notifications/initialized" none with ⟨res2, st3⟩
      have hsent3 : st3.sent = st2.sent ++ l2 := by
        have h2 := hl2
        rw [hcall2] at h2
        simpa using h2
      cases res2 with
      | error e2 =>
        simp [initServer, hcall, hcall2, hsent3, hsent2, List.append_assoc,
          List.drop_left]
      | ok u2 =>
        simp [initServer, hcall, hcall2, hsent3, hsent2, List.append_assoc,
          List.drop_left]

/-- Witness for `request_ids_monotonic_per_process` on a running server
with counter 0, a two-call run, and the session start. -/
theorem request_ids_monotonic_per_process_witness :
    alLookup sampleMcpSt.processes "s" = some ⟨0, false⟩ ∧
    alLookup sessionSt.config "s" = some sampleCfg ∧
    sampleCfg.transport = .Stdio ∧
    ((call sampleMcpSt "s" "tools/list" none).2.sent =
        sampleMcpSt.sent ++ [⟨"s", 1, "tools/list", none⟩] ∧
      ∃ q, alLookup (call sampleMcpSt "s" "tools/list" none).2.processes "s" =
        some q ∧ q.request_id = 1) ∧
    (idsTo "s" ((runCalls sampleMcpSt "s"
        [("tools/list", none), ("tools/call", none)]).sent.drop
          sampleMcpSt.sent.length) = List.range' 1 2 ∧
      strictlyIncreasing (idsTo "s" ((runCalls sampleMcpSt "s"
        [("tools/list", none), ("tools/call", none)]).sent.drop
          sampleMcpSt.sent.length)) = true) ∧
    ((start_server sessionSt "s").2.sent.drop sessionSt.sent.length).head? =
      some ⟨"s", 1, "initialize", some initParams⟩ :=
  ⟨rfl, rfl, rfl,
   request_ids_monotonic_per_process.1 sampleMcpSt "s" ⟨0, false⟩
     "tools/list" none rfl,
   request_ids_monotonic_per_process.2.1
     [("tools/list", none), ("tools/call", none)] sampleMcpSt "s"
     ⟨0, false⟩ rfl,
   request_ids_monotonic_per_process.2.2 sessionSt "s" sampleCfg rfl rfl⟩

end Sabi
